import Mathlib

/-
  Verification development for the PyRex WARC-processing pipeline.

  Shallow embedding of the Python sources (pyrex.py, pyrex_basic.py,
  pyrex_html.py, config/settings.py) into Lean 4.  External libraries
  (chardet, ftfy, lingua, langid, tldextract, urllib, BeautifulSoup,
  Selectolax) are modelled as oracle parameters: total functions whose
  result type is Option when the library call can raise an exception
  (none models a raised exception that the Python code catches).
  Python floats used only in order comparisons (confidence scores and
  thresholds) are modelled as rationals, which is faithful because the
  code only ever compares them.  Python string primitives (lower,
  strip, slicing, split) are modelled by the py* helpers below, written
  over the underlying character lists; they agree with Python on ASCII
  data, and every concrete input used below is ASCII.
-/

namespace PyRex

/-- Python str.strip (whitespace strip on both ends), written over the
character list so that it reduces in the kernel. -/
def pyStrip (s : String) : String :=
  ⟨(((s.data.dropWhile Char.isWhitespace).reverse.dropWhile Char.isWhitespace).reverse)⟩

/-- Python slicing s[:n] (first n characters). -/
def pyTake (s : String) (n : Nat) : String :=
  ⟨s.data.take n⟩

/-- Python str.lower, character-wise (agrees with Python on ASCII,
which covers every concrete input below and every code-level literal
the sources compare against). -/
def pyLower (s : String) : String :=
  ⟨s.data.map Char.toLower⟩

/-- Python len on strings (number of characters). -/
def pyLen (s : String) : Nat :=
  s.data.length

/-- Python membership test `c in s` for a single character. -/
def pyHasChar (s : String) (c : Char) : Bool :=
  s.data.contains c

/-- Python str.isascii. -/
def pyIsAscii (s : String) : Bool :=
  s.data.all (fun c => c.toNat < 128)

/-- Python str.split(sep) for a one-character separator: splits on every
occurrence and keeps empty pieces, like String.splitOn. -/
def pySplitChar (s : String) (sep : Char) : List String :=
  ((s.data.splitOn sep).map fun l => (⟨l⟩ : String))

/-- Exact rational n/d given directly by numerator and denominator in
lowest terms, so that closed terms reduce in the kernel (Rat division
normalizes through Nat.gcd, whose well-founded definition the kernel
cannot unfold). -/
def ratQ (n : Int) (d : Nat) (h1 : d ≠ 0) (h2 : n.natAbs.Coprime d) : ℚ := ⟨n, d, h1, h2⟩

/-- Configuration record mirroring config/settings.py (PyRexSettings).
The fields below minimal_text_length .. verbose_logging are declared in
src/config/settings.py with the listed defaults.  The language-filter,
URL-filter and fast-parsing fields are referenced by pyrex.py and
pyrex_basic.py but their declarations are not part of the provided
settings.py; they are modelled from the spec (section 6, recognized
configuration options) as plain configuration values. -/
structure Settings where
  minimal_text_length : Nat
  preview_text_chars : Nat
  chardet_sample_size : Nat
  html_detection_sample : Nat
  remove_scripts : Bool
  remove_comments : Bool
  remove_styles : Bool
  use_lxml_parsing : Bool
  skip_ascii_optimization : Bool
  confidence_threshold : ℚ
  output_mode : String
  dump_with_html_tags : Bool
  verbose_logging : Bool
  use_fast_parsing : Bool
  enable_language_filtering : Bool
  accepted_languages : List String
  language_detection_chars : Nat
  language_confidence_threshold : ℚ
  enable_url_filtering : Bool
  accepted_tlds : List String
  accepted_subdomains : List String
  accepted_path_segments : List String
deriving Repr, DecidableEq

/-- Defaults of config/settings.py; the fields absent from the provided
settings.py get representative values (German-region defaults per the
module docstrings); no theorem below depends on those defaults. -/
def defaultSettings : Settings where
  minimal_text_length := 1000
  preview_text_chars := 2000
  chardet_sample_size := 32768
  html_detection_sample := 1024
  remove_scripts := true
  remove_comments := true
  remove_styles := true
  use_lxml_parsing := true
  skip_ascii_optimization := false
  confidence_threshold := ratQ 7 10 (by norm_num) (by norm_num)
  output_mode := "console"
  dump_with_html_tags := false
  verbose_logging := false
  use_fast_parsing := true
  enable_language_filtering := true
  accepted_languages := ["de"]
  language_detection_chars := 1000
  language_confidence_threshold := ratQ 17 20 (by norm_num) (by norm_num)
  enable_url_filtering := true
  accepted_tlds := ["de", "at", "ch"]
  accepted_subdomains := ["de"]
  accepted_path_segments := ["de"]

/-- Oracles for the two language-detection libraries used by
detect_and_filter_languages (pyrex_basic.py).

lingua models the whole primary block of lines 132-236: building the
restricted detector and calling compute_language_confidence_values on
the sample.  Its value is the confidence-ranked candidate list, each
candidate already mapped through lang_code_map to an ISO code (the map
is total on the restricted language set the detector is built from);
none models an exception raised inside the block (caught at line 234).

langid models langid.classify on the sample; none models ImportError
or any other exception (caught at lines 248-253). -/
structure LangOracles where
  lingua_available : Bool
  lingua : String → Option (List (String × ℚ))
  langid : String → Option (String × ℚ)

/-- Primary detection path of detect_and_filter_languages
(pyrex_basic.py lines 130-236): the value of detected_language after
the lingua block.  some lang when the top-ranked candidate clears the
configured threshold; none when lingua is unavailable, raised, returned
an empty candidate list, or its top candidate is below threshold. -/
def lingua_primary (s : Settings) (o : LangOracles) (sample_text : String) : Option String :=
  if o.lingua_available then
    match o.lingua sample_text with
    | none => none
    | some [] => none
    | some ((lang, conf) :: _) =>
      if s.language_confidence_threshold ≤ conf then some lang else none
  else none

/-- Fallback detection path (pyrex_basic.py lines 239-253): langid,
accepted only with confidence strictly above 0.8. -/
def langid_fallback (o : LangOracles) (sample_text : String) : Option String :=
  match o.langid sample_text with
  | none => none
  | some (code, conf) => if ratQ 4 5 (by norm_num) (by norm_num) < conf then some code else none

/-- detected_language after both blocks (pyrex_basic.py line 239: the
fallback runs iff the primary left detected_language as None). -/
def detect_language (s : Settings) (o : LangOracles) (sample_text : String) : Option String :=
  match lingua_primary s o sample_text with
  | some lang => some lang
  | none => langid_fallback o sample_text

/-- Embedding of detect_and_filter_languages (pyrex_basic.py lines
94-272).  Returns (should_continue, detected_language).  The final
Python truthiness test `if detected_language:` makes an empty-string
detection fall to the (False, None) branch, which the embedding
mirrors. -/
def detect_and_filter_languages (s : Settings) (o : LangOracles) (text : String) :
    Bool × Option String :=
  if !s.enable_language_filtering then (true, none)
  else if text = "" || pyStrip text = "" then (false, none)
  else
    let sample_text := pyStrip (pyTake text s.language_detection_chars)
    if pyLen sample_text < 10 then (false, none)
    else
      match detect_language s o sample_text with
      | some lang =>
        if lang = "" then (false, none)
        else ((s.accepted_languages.map pyLower).contains (pyLower lang), some lang)
      | none => (false, none)

/-- Whether control reaches the langid fallback block (pyrex_basic.py
line 239): language filtering enabled, usable text, and the primary
lingua path produced no accepted detection. -/
def langid_consulted (s : Settings) (o : LangOracles) (text : String) : Bool :=
  if !s.enable_language_filtering then false
  else if text = "" || pyStrip text = "" then false
  else
    let sample_text := pyStrip (pyTake text s.language_detection_chars)
    if pyLen sample_text < 10 then false
    else (lingua_primary s o sample_text).isNone


/-! Claim C1: threshold monotonicity of language acceptance. -/

/-- Settings for the C1 counterexample: language filtering on, German
accepted. -/
def c1Settings : Settings :=
  { defaultSettings with
      enable_language_filtering := true
      accepted_languages := ["de"]
      language_detection_chars := 1000 }

/-- Oracles for the C1 counterexample: lingua ranks English on top with
confidence 0.6; langid reports German with confidence 0.9. -/
def c1Oracles : LangOracles where
  lingua_available := true
  lingua := fun _ => some [("en", ratQ 3 5 (by norm_num) (by norm_num))]
  langid := fun _ => some ("de", ratQ 9 10 (by norm_num) (by norm_num))

/-- C1 counterexample: the same text is accepted at threshold 0.7 but
rejected at the lower threshold 0.5.  At 0.7 the primary (lingua) top
candidate en@0.6 is below threshold, so the langid fallback runs and
accepts de@0.9; at 0.5 the primary candidate en clears the threshold
and en is not in the accepted set.  So raising the threshold grew the
acceptance set, refuting the claim as stated. -/
theorem C1_counterexample :
    (ratQ 1 2 (by norm_num) (by norm_num) ≤ ratQ 7 10 (by norm_num) (by norm_num)) ∧
    (detect_and_filter_languages
      { c1Settings with language_confidence_threshold := ratQ 7 10 (by norm_num) (by norm_num) }
      c1Oracles "abcdefghijklmnop").1 = true ∧
    (detect_and_filter_languages
      { c1Settings with language_confidence_threshold := ratQ 1 2 (by norm_num) (by norm_num) }
      c1Oracles "abcdefghijklmnop").1 = false := by
  refine ⟨by decide, by decide, by decide⟩

/-- Helper for C1: lowering the threshold preserves a successful
primary (lingua) detection, with the same detected language. -/
theorem lingua_primary_threshold_mono (s : Settings) (o : LangOracles) (sample_text : String)
    (t' : ℚ) (hle : t' ≤ s.language_confidence_threshold) (lang : String)
    (h : lingua_primary s o sample_text = some lang) :
    lingua_primary { s with language_confidence_threshold := t' } o sample_text = some lang := by
  unfold lingua_primary at h ⊢
  cases hb : o.lingua_available with
  | false => simp [hb] at h
  | true =>
    simp only [hb, if_true] at h ⊢
    cases hl : o.lingua sample_text with
    | none => simp [hl] at h
    | some l =>
      cases l with
      | nil => simp [hl] at h
      | cons hd tl =>
        obtain ⟨lg, conf⟩ := hd
        simp only [hl] at h ⊢
        by_cases hc : s.language_confidence_threshold ≤ conf
        · simp only [if_pos hc] at h
          simp [if_pos (le_trans hle hc), h]
        · simp [if_neg hc] at h

/-- C1 (amended): for a fixed text and fixed accepted-language set,
if detect_and_filter_languages accepts at the configured threshold AND
the acceptance came through the primary (lingua) path (its top
candidate cleared the threshold), then it also accepts at every lower
threshold.  The restriction to the primary path is forced by the
counterexample: an acceptance produced by the langid fallback (which
runs whenever the primary detection is below threshold) can be lost
when the threshold is lowered. -/
theorem C1_threshold_monotone_on_primary_path (s : Settings) (o : LangOracles) (text : String)
    (t' : ℚ) (hle : t' ≤ s.language_confidence_threshold)
    (hprim : (lingua_primary s o (pyStrip (pyTake text s.language_detection_chars))).isSome)
    (hacc : (detect_and_filter_languages s o text).1 = true) :
    (detect_and_filter_languages { s with language_confidence_threshold := t' } o text).1 = true := by
  obtain ⟨lang, hlang⟩ := Option.isSome_iff_exists.mp hprim
  have hlang' := lingua_primary_threshold_mono s o _ t' hle lang hlang
  unfold detect_and_filter_languages at hacc ⊢
  cases he : s.enable_language_filtering with
  | false => simp [he]
  | true =>
    simp only [he, Bool.not_true, Bool.false_eq_true, if_false] at hacc ⊢
    by_cases h2 : (text = "" || pyStrip text = "") = true
    · rw [if_pos h2] at hacc; simp at hacc
    · rw [if_neg h2] at hacc ⊢
      by_cases h3 : pyLen (pyStrip (pyTake text s.language_detection_chars)) < 10
      · rw [if_pos h3] at hacc; simp at hacc
      · rw [if_neg h3] at hacc ⊢
        have hd : detect_language s o (pyStrip (pyTake text s.language_detection_chars)) = some lang := by
          unfold detect_language; rw [hlang]
        have hd' : detect_language { s with language_confidence_threshold := t' } o
            (pyStrip (pyTake text s.language_detection_chars)) = some lang := by
          unfold detect_language; rw [hlang']
        rw [hd] at hacc
        rw [he] at hd'
        rw [hd']
        exact hacc

/-- Witness for C1: a concrete primary-path acceptance at threshold 0.7
that the theorem carries down to threshold 0.5. -/
theorem C1_witness :
    (detect_and_filter_languages
      { c1Settings with language_confidence_threshold := ratQ 1 2 (by norm_num) (by norm_num) }
      { c1Oracles with lingua := fun _ => some [("de", ratQ 9 10 (by norm_num) (by norm_num))] }
      "abcdefghijklmnop").1 = true :=
  C1_threshold_monotone_on_primary_path
    { c1Settings with language_confidence_threshold := ratQ 7 10 (by norm_num) (by norm_num) }
    { c1Oracles with lingua := fun _ => some [("de", ratQ 9 10 (by norm_num) (by norm_num))] }
    "abcdefghijklmnop" (ratQ 1 2 (by norm_num) (by norm_num)) (by decide) (by decide) (by decide)


/-! Claim C5: when the langid fallback is consulted. -/

/-- Helper for C5: the primary lingua path yields no detection exactly
when lingua is unavailable, raised, returned no candidates, or its top
candidate fell below the configured threshold. -/
theorem lingua_primary_eq_none_iff (s : Settings) (o : LangOracles) (st : String) :
    lingua_primary s o st = none ↔
      (o.lingua_available = false ∨ o.lingua st = none ∨ o.lingua st = some [] ∨
       ∃ lang conf rest, o.lingua st = some ((lang, conf) :: rest) ∧
         conf < s.language_confidence_threshold) := by
  unfold lingua_primary
  cases hb : o.lingua_available with
  | false => simp [hb]
  | true =>
    simp only [hb, if_true, Bool.true_eq_false, false_or]
    cases hl : o.lingua st with
    | none => simp [hl]
    | some l =>
      cases l with
      | nil => simp [hl]
      | cons hd tl =>
        obtain ⟨lg, conf⟩ := hd
        by_cases hc : s.language_confidence_threshold ≤ conf
        · simp [hl, if_pos hc, not_lt.mpr hc]
          exact hc
        · simp [hl, if_neg hc, not_le.mp hc]
          exact ⟨lg, conf, ⟨rfl, rfl⟩, not_le.mp hc⟩

/-- C5 counterexample: langid is consulted although lingua is available
and its detection block ran without raising — its top candidate was
merely below the configured threshold.  This refutes the claim that the
secondary classifier is invoked only when the primary is unavailable or
raised internally. -/
theorem C5_counterexample :
    langid_consulted
      { c1Settings with language_confidence_threshold := ratQ 7 10 (by norm_num) (by norm_num) }
      { lingua_available := true
        lingua := fun _ => some [("en", ratQ 3 5 (by norm_num) (by norm_num))]
        langid := fun _ => some ("de", ratQ 9 10 (by norm_num) (by norm_num)) }
      "abcdefghijklmnop" = true ∧
    ({ lingua_available := true
       lingua := fun _ => some [("en", ratQ 3 5 (by norm_num) (by norm_num))]
       langid := fun _ => some ("de", ratQ 9 10 (by norm_num) (by norm_num)) } : LangOracles).lingua_available = true ∧
    (({ lingua_available := true
        lingua := fun _ => some [("en", ratQ 3 5 (by norm_num) (by norm_num))]
        langid := fun _ => some ("de", ratQ 9 10 (by norm_num) (by norm_num)) } : LangOracles).lingua
      (pyStrip (pyTake "abcdefghijklmnop" 1000))).isSome = true := by
  refine ⟨by decide, rfl, by decide⟩

/-- C5 (amended): the langid fallback is consulted exactly when
language filtering is enabled, the text sample is usable, and the
primary lingua path produced no detection — lingua unavailable, lingua
raised, an empty candidate list, or a top candidate below the
configured threshold.  In particular a successful primary run whose top
confidence is below the threshold does consult langid, contrary to the
claim as stated. -/
theorem C5_langid_consulted_iff (s : Settings) (o : LangOracles) (text : String) :
    langid_consulted s o text = true ↔
      (s.enable_language_filtering = true ∧ text ≠ "" ∧ pyStrip text ≠ "" ∧
       ¬ pyLen (pyStrip (pyTake text s.language_detection_chars)) < 10 ∧
       (o.lingua_available = false ∨
        o.lingua (pyStrip (pyTake text s.language_detection_chars)) = none ∨
        o.lingua (pyStrip (pyTake text s.language_detection_chars)) = some [] ∨
        ∃ lang conf rest,
          o.lingua (pyStrip (pyTake text s.language_detection_chars)) = some ((lang, conf) :: rest) ∧
          conf < s.language_confidence_threshold)) := by
  unfold langid_consulted
  rw [← lingua_primary_eq_none_iff]
  cases he : s.enable_language_filtering with
  | false => simp [he]
  | true =>
    simp only [he, Bool.not_true, Bool.false_eq_true, if_false, true_and]
    by_cases h2 : (text = "" || pyStrip text = "") = true
    · rw [if_pos h2]
      simp only [Bool.or_eq_true, decide_eq_true_eq] at h2
      simp only [Bool.false_eq_true, false_iff]
      intro h
      rcases h2 with h2 | h2
      · exact h.1 h2
      · exact h.2.1 h2
    · rw [if_neg h2]
      simp only [Bool.or_eq_true, decide_eq_true_eq, not_or] at h2
      by_cases h3 : pyLen (pyStrip (pyTake text s.language_detection_chars)) < 10
      · simp [if_pos h3, h3]
      · simp [if_neg h3, h2.1, h2.2, h3, Option.isNone_iff_eq_none]


/-! Claim C2: URL filter OR-semantics (parse_and_filter_url, pyrex.py). -/

/-- Python '.'.join(l). -/
def pyJoinDot (l : List String) : String :=
  String.intercalate "." l

/-- Result of urllib.parse.urlparse restricted to the two fields the
code reads (netloc and path). -/
structure UrlParts where
  netloc : String
  path : String

/-- Result of tldextract.extract restricted to the three fields the
code reads. -/
structure TldParts where
  suffix : String
  domain : String
  subdomain : String

/-- Oracles for the URL libraries used by parse_and_filter_url
(pyrex.py lines 27-131).  urlparse models urllib.parse.urlparse (none
models an exception, caught by the outer handler at line 128);
tldextract models tldextract.extract (none models an exception, caught
at line 88 with a manual-parsing fallback). -/
structure UrlOracles where
  tldextract_available : Bool
  urlparse : String → Option UrlParts
  tldextract : String → Option TldParts

/-- Manual hostname parsing fallback (pyrex.py lines 92-96 and 98-103,
identical code in both places): split on dots; TLD is the last part,
domain the last two joined, subdomain the first part when there are
more than two parts.  Returns (tld, domain, subdomain, full_hostname). -/
def manual_url_components (hostname : String) : String × String × String × String :=
  let parts := pySplitChar hostname '.'
  let tld := parts.getLastD ""
  let domain := if parts.length ≥ 2 then pyJoinDot (parts.drop (parts.length - 2)) else hostname
  let subdomain := if parts.length > 2 then parts.headD "" else ""
  (tld, domain, subdomain, hostname)

/-- Component extraction of parse_and_filter_url (pyrex.py lines
69-103): tldextract when available and successful, with an inner
fallback (lines 82-86) when the extracted suffix or domain is empty,
and the manual parsing fallback otherwise.  hostname is the already
lowercased netloc.  Returns (tld, domain, subdomain, full_hostname). -/
def extract_url_components (o : UrlOracles) (url : String) (hostname : String) :
    String × String × String × String :=
  if o.tldextract_available then
    match o.tldextract url with
    | some ext =>
      let tld := pyLower ext.suffix
      let domain_name := pyLower ext.domain
      let subdomain := pyLower ext.subdomain
      if tld ≠ "" ∧ domain_name ≠ "" then
        let domain := domain_name ++ "." ++ tld
        let full_hostname := if subdomain ≠ "" then subdomain ++ "." ++ domain else domain
        (tld, domain, subdomain, full_hostname)
      else
        let tld2 := if pyHasChar hostname '.' then (pySplitChar hostname '.').getLastD "" else ""
        let subdomain2 :=
          if pyHasChar hostname '.' ∧ (pySplitChar hostname '.').length > 2 then
            (pySplitChar hostname '.').headD ""
          else ""
        (tld2, hostname, subdomain2, hostname)
    | none => manual_url_components hostname
  else manual_url_components hostname

/-- Nonempty stripped path segments (pyrex.py line 112). -/
def url_path_segments (path : String) : List String :=
  ((pySplitChar path '/').map pyStrip).filter (fun seg => seg ≠ "")

/-- Embedding of parse_and_filter_url (pyrex.py lines 27-131).
Returns (should_continue, tld, domain, full_hostname); the three
component slots are none exactly on the early-return and fail-closed
paths, mirroring the Python None values. -/
def parse_and_filter_url (s : Settings) (o : UrlOracles) (url : String) :
    Bool × Option String × Option String × Option String :=
  if !s.enable_url_filtering then (true, none, none, none)
  else if url = "" || pyStrip url = "" then (false, none, none, none)
  else
    match o.urlparse (pyStrip (pyLower url)) with
    | none => (false, none, none, none)
    | some parsed =>
      let hostname := pyLower parsed.netloc
      let path := pyLower parsed.path
      if hostname = "" then (false, none, none, none)
      else
        let comps := extract_url_components o url hostname
        let tld := comps.1
        let domain := comps.2.1
        let subdomain := comps.2.2.1
        let full_hostname := comps.2.2.2
        let tld_match := if tld ≠ "" then (s.accepted_tlds.map pyLower).contains tld else false
        let subdomain_match :=
          if subdomain ≠ "" then (s.accepted_subdomains.map pyLower).contains subdomain else false
        let path_match :=
          (url_path_segments path).any (fun seg => (s.accepted_path_segments.map pyLower).contains seg)
        (tld_match || subdomain_match || path_match, some tld, some domain, some full_hostname)


/-- C2: with URL filtering enabled and a parseable (nonempty) hostname,
parse_and_filter_url accepts iff at least one of the three
case-insensitive checks holds: the extracted TLD is in the accepted-TLD
set, the extracted subdomain is in the accepted-subdomain set, or some
nonempty stripped path segment is in the accepted-path-segment set.
The hypotheses that the accepted sets contain no empty string reflect
that the code guards the TLD and subdomain checks behind nonemptiness
of the extracted component (pyrex.py lines 106, 109), which is
observable only for configurations listing an empty string as an
accepted TLD or subdomain. -/
theorem C2_url_or_semantics (s : Settings) (o : UrlOracles) (url : String) (parsed : UrlParts)
    (hen : s.enable_url_filtering = true)
    (hne : pyStrip url ≠ "")
    (hparse : o.urlparse (pyStrip (pyLower url)) = some parsed)
    (hhost : pyLower parsed.netloc ≠ "")
    (htld : ¬ ((s.accepted_tlds.map pyLower).contains "" = true))
    (hsub : ¬ ((s.accepted_subdomains.map pyLower).contains "" = true)) :
    (parse_and_filter_url s o url).1 = true ↔
      ((s.accepted_tlds.map pyLower).contains
          (extract_url_components o url (pyLower parsed.netloc)).1 = true ∨
       (s.accepted_subdomains.map pyLower).contains
          (extract_url_components o url (pyLower parsed.netloc)).2.2.1 = true ∨
       ∃ seg ∈ url_path_segments (pyLower parsed.path),
         (s.accepted_path_segments.map pyLower).contains seg = true) := by
  have hu : url ≠ "" := by
    intro h; exact hne (by rw [h]; rfl)
  unfold parse_and_filter_url
  simp only [hen, Bool.not_true, Bool.false_eq_true, if_false]
  rw [if_neg (by simp [hu, hne])]
  simp only [hparse]
  rw [if_neg hhost]
  by_cases ht : (extract_url_components o url (pyLower parsed.netloc)).1 = "" <;>
    by_cases hs2 : (extract_url_components o url (pyLower parsed.netloc)).2.2.1 = ""
  · simp [ht, hs2, List.any_eq_true] at htld hsub ⊢
    constructor
    · intro h; exact Or.inr (Or.inr h)
    · rintro (⟨a, ha, hpa⟩ | ⟨a, ha, hpa⟩ | h)
      · exact absurd hpa (htld a ha)
      · exact absurd hpa (hsub a ha)
      · exact h
  · simp [ht, hs2, List.any_eq_true] at htld ⊢
    intro x hx hpx
    exact absurd hpx (htld x hx)
  · simp [ht, hs2, List.any_eq_true] at hsub ⊢
    constructor
    · rintro (h | h)
      · exact Or.inl h
      · exact Or.inr (Or.inr h)
    · rintro (h | ⟨a, ha, hpa⟩ | h)
      · exact Or.inl h
      · exact absurd hpa (hsub a ha)
      · exact Or.inr h
  · simp [ht, hs2, List.any_eq_true]
    exact or_assoc

/-- Concrete settings for the C2 witness: only German TLDs, the "shop"
subdomain and the "wien" path segment are accepted. -/
def c2Settings : Settings :=
  { defaultSettings with
      enable_url_filtering := true
      accepted_tlds := ["de"]
      accepted_subdomains := ["shop"]
      accepted_path_segments := ["wien"] }

/-- Concrete URL oracles for the C2 witness. -/
def c2Oracles : UrlOracles where
  tldextract_available := true
  urlparse := fun _ => some { netloc := "www.example.de", path := "/wien/page" }
  tldextract := fun _ => some { suffix := "de", domain := "example", subdomain := "www" }

/-- Witness for C2: a URL matching only the TLD criterion is accepted. -/
theorem C2_witness :
    (parse_and_filter_url c2Settings c2Oracles "http://www.example.de/wien/page").1 = true :=
  (C2_url_or_semantics c2Settings c2Oracles "http://www.example.de/wien/page"
    { netloc := "www.example.de", path := "/wien/page" }
    rfl (by decide) rfl (by decide) (by decide) (by decide)).mpr
    (Or.inl (by decide))


/-! Claim C3: the byte decoder never fails (decode_and_normalize,
pyrex_basic.py lines 22-48). -/

/-- Oracles for the byte-decoding stage.  chardet models chardet.detect
on the byte sample, returning the reported encoding (none models a None
encoding, some "" an empty one — both falsy in Python) and the
confidence.  decode models bytes.decode(encoding, errors=replace):
some t is the decoded string with undecodable sequences replaced; none
models a raised exception — UnicodeDecodeError or LookupError for an
encoding unknown to the runtime (caught at pyrex_basic.py line 46).
Payload bytes are modelled as lists of naturals. -/
structure DecodeOracles where
  chardet : List Nat → Option String × ℚ
  decode : String → List Nat → Option String

/-- The encoding selected by decode_and_normalize before decoding
(pyrex_basic.py lines 32-41): the detected encoding, forced to utf-8
when the confidence is below the configured threshold or no encoding
was reported. -/
def chosen_encoding (s : Settings) (o : DecodeOracles) (payload : List Nat) : String :=
  let sample_size := min s.chardet_sample_size payload.length
  let detection := o.chardet (payload.take sample_size)
  if detection.2 < s.confidence_threshold ∨ detection.1 = none ∨ detection.1 = some "" then "utf-8"
  else detection.1.getD "utf-8"

/-- Embedding of decode_and_normalize (pyrex_basic.py lines 22-48).
The Option result models whether an exception escapes: none would mean
an uncaught exception. -/
def decode_and_normalize (s : Settings) (o : DecodeOracles) (payload : List Nat) : Option String :=
  match o.decode (chosen_encoding s o payload) payload with
  | some t => some t
  | none => o.decode "utf-8" payload

/-- C3: assuming the runtime's utf-8 decode with byte replacement is
total (Python guarantees this for the known utf-8 codec under
errors=replace), decode_and_normalize always returns a string; when
detection confidence is below the threshold or no encoding is reported
the result is the utf-8 decode of the payload; and when decoding with
the chosen encoding raises, the result falls back to the utf-8
decode. -/
theorem C3_decode_total_and_utf8_fallback (s : Settings) (o : DecodeOracles) (payload : List Nat)
    (hutf8 : ∀ b : List Nat, (o.decode "utf-8" b).isSome = true) :
    (decode_and_normalize s o payload).isSome = true ∧
    (((o.chardet (payload.take (min s.chardet_sample_size payload.length))).2 <
        s.confidence_threshold ∨
      (o.chardet (payload.take (min s.chardet_sample_size payload.length))).1 = none ∨
      (o.chardet (payload.take (min s.chardet_sample_size payload.length))).1 = some "" →
        decode_and_normalize s o payload = o.decode "utf-8" payload) ∧
    (o.decode (chosen_encoding s o payload) payload = none →
      decode_and_normalize s o payload = o.decode "utf-8" payload)) := by
  refine ⟨?_, ?_, ?_⟩
  · unfold decode_and_normalize
    cases h : o.decode (chosen_encoding s o payload) payload with
    | none => simpa using hutf8 payload
    | some t => rfl
  · intro hforce
    unfold decode_and_normalize chosen_encoding
    rw [if_pos hforce]
    cases h : o.decode "utf-8" payload with
    | none => simp [h]
    | some t => simp [h]
  · intro hnone
    unfold decode_and_normalize
    rw [hnone]

/-- Concrete oracles for the C3 witness: detection reports ascii at
confidence 0.5 (below the 0.7 threshold); only utf-8 decoding
succeeds. -/
def c3Oracles : DecodeOracles where
  chardet := fun _ => (some "ascii", ratQ 1 2 (by norm_num) (by norm_num))
  decode := fun enc _ => if enc = "utf-8" then some "hi" else none

/-- Witness for C3: at a concrete two-byte payload the decoder returns
a string. -/
theorem C3_witness :
    (decode_and_normalize defaultSettings c3Oracles [104, 105]).isSome = true :=
  (C3_decode_total_and_utf8_fallback defaultSettings c3Oracles [104, 105]
    (fun _ => rfl)).1

/-! Claim C4: the length filter (filter_minimal_html, pyrex_html.py
lines 146-180). -/

/-- Embedding of filter_minimal_html (pyrex_html.py lines 146-180).
The visible-text computation inside the try block (extract_text_fast on
a raw string, get_text on a parsed soup) is abstracted as extracted:
some visible is the computed visible text, none models an exception
raised while computing it, which the except handler at lines 177-180
turns into rejection.  minimal_text_length is the optional explicit
minimum, defaulting to the configured one (line 162). -/
def filter_minimal_html (s : Settings) (extracted : Option String)
    (minimal_text_length : Option Nat) : Bool :=
  let min_length := minimal_text_length.getD s.minimal_text_length
  match extracted with
  | some visible => decide (min_length ≤ pyLen visible)
  | none => false

/-- C4: the filter accepts iff extraction produced a text of at least
the minimum character count (boundary inclusive), and any
extraction-layer failure is rejected (fail-closed). -/
theorem C4_length_filter_boundary_and_fail_closed (s : Settings)
    (extracted : Option String) (m : Option Nat) :
    (filter_minimal_html s extracted m = true ↔
      ∃ visible, extracted = some visible ∧ m.getD s.minimal_text_length ≤ pyLen visible) ∧
    (extracted = none → filter_minimal_html s extracted m = false) := by
  constructor
  · unfold filter_minimal_html
    cases extracted with
    | none => simp
    | some visible => simp
  · intro h
    rw [h]
    rfl

/-- Witness for C4 at minimum length 3: text of exactly the minimum
passes, one character short fails, one character longer passes, and a
failed extraction is rejected. -/
theorem C4_witness :
    filter_minimal_html { defaultSettings with minimal_text_length := 3 } (some "abc") none = true ∧
    filter_minimal_html { defaultSettings with minimal_text_length := 3 } (some "ab") none = false ∧
    filter_minimal_html { defaultSettings with minimal_text_length := 3 } (some "abcd") none = true ∧
    filter_minimal_html { defaultSettings with minimal_text_length := 3 } none none = false := by
  refine ⟨?_, ?_, ?_, ?_⟩
  · exact (C4_length_filter_boundary_and_fail_closed
      { defaultSettings with minimal_text_length := 3 } (some "abc") none).1.mpr
      ⟨"abc", rfl, by decide⟩
  · have h := (C4_length_filter_boundary_and_fail_closed
      { defaultSettings with minimal_text_length := 3 } (some "ab") none).1
    cases hb : filter_minimal_html { defaultSettings with minimal_text_length := 3 } (some "ab") none with
    | false => rfl
    | true =>
      obtain ⟨v, hv, hlen⟩ := h.mp hb
      cases hv
      exact absurd hlen (by decide)
  · exact (C4_length_filter_boundary_and_fail_closed
      { defaultSettings with minimal_text_length := 3 } (some "abcd") none).1.mpr
      ⟨"abcd", rfl, by decide⟩
  · exact (C4_length_filter_boundary_and_fail_closed
      { defaultSettings with minimal_text_length := 3 } none none).2 rfl


/-! Claim C6: idempotence of the text repairer (fix_text_encoding,
pyrex_basic.py lines 51-91). -/

/-- Oracles for the repair libraries.  ftfy models ftfy.fix_text with
the options fixed at pyrex_basic.py lines 74-80 (none models a raised
exception, caught at line 88, which makes the function return its input
unchanged); unescape models html.unescape (a total pure stdlib
function). -/
structure RepairOracles where
  ftfy : String → Option String
  unescape : String → String

/-- Embedding of fix_text_encoding (pyrex_basic.py lines 51-91): the
ASCII fast path (taken when skip_ascii_optimization is false and the
text is pure ASCII with no ampersand and no mis-decoding signal), then
the ftfy repair pass, then HTML entity unescaping only when an
ampersand remains. -/
def fix_text_encoding (s : Settings) (o : RepairOracles) (text : String) : String :=
  if !s.skip_ascii_optimization && pyIsAscii text && !pyHasChar text '&' && !pyHasChar text 'â' then
    text
  else
    match o.ftfy text with
    | none => text
    | some fixed => if pyHasChar fixed '&' then o.unescape fixed else fixed

/-- C6: the repair operation is idempotent.  The three hypotheses are
stability properties of the external libraries on already-repaired
text: ftfy is idempotent on its own output (H1, ftfy documents fix_text
as applying its fixers until the text stops changing), ftfy leaves
unescaped repaired text alone (H2), and html.unescape is idempotent on
ftfy output (H3, ftfy with fix_entities already resolved the entity
layers it found).  Given these, the code structure — fast path,
conditional unescape, exception fallback to the input — preserves
idempotence. -/
theorem C6_repair_idempotent (s : Settings) (o : RepairOracles)
    (H1 : ∀ t u, o.ftfy t = some u → o.ftfy u = some u)
    (H2 : ∀ t u, o.ftfy t = some u → o.ftfy (o.unescape u) = some (o.unescape u))
    (H3 : ∀ t u, o.ftfy t = some u → o.unescape (o.unescape u) = o.unescape u)
    (t : String) :
    fix_text_encoding s o (fix_text_encoding s o t) = fix_text_encoding s o t := by
  by_cases hfp : (!s.skip_ascii_optimization && pyIsAscii t && !pyHasChar t '&' && !pyHasChar t 'â') = true
  · have h : fix_text_encoding s o t = t := by
      unfold fix_text_encoding; rw [if_pos hfp]
    rw [h]
    exact h
  · have hstep : fix_text_encoding s o t =
        match o.ftfy t with
        | none => t
        | some fixed => if pyHasChar fixed '&' then o.unescape fixed else fixed := by
      unfold fix_text_encoding; rw [if_neg hfp]
    cases hf : o.ftfy t with
    | none =>
      have h : fix_text_encoding s o t = t := by rw [hstep, hf]
      rw [h]
      exact h
    | some u =>
      by_cases hamp : pyHasChar u '&' = true
      · have h : fix_text_encoding s o t = o.unescape u := by
          rw [hstep, hf]; simp [hamp]
        rw [h]
        by_cases hfp2 : (!s.skip_ascii_optimization && pyIsAscii (o.unescape u) &&
            !pyHasChar (o.unescape u) '&' && !pyHasChar (o.unescape u) 'â') = true
        · unfold fix_text_encoding; rw [if_pos hfp2]
        · unfold fix_text_encoding
          rw [if_neg hfp2]
          rw [H2 t u hf]
          by_cases hamp2 : pyHasChar (o.unescape u) '&' = true
          · simp only [hamp2, if_true]
            exact H3 t u hf
          · simp [hamp2]
      · have h : fix_text_encoding s o t = u := by
          rw [hstep, hf]; simp [hamp]
        rw [h]
        by_cases hfp2 : (!s.skip_ascii_optimization && pyIsAscii u &&
            !pyHasChar u '&' && !pyHasChar u 'â') = true
        · unfold fix_text_encoding; rw [if_pos hfp2]
        · unfold fix_text_encoding
          rw [if_neg hfp2]
          rw [H1 t u hf]
          simp [hamp]

/-- Witness for C6: concrete repair oracles (identity repair, identity
unescape — which satisfy the three stability hypotheses definitionally)
applied to a text that takes the non-fast path because of its
ampersand. -/
theorem C6_witness :
    fix_text_encoding defaultSettings { ftfy := fun t => some t, unescape := fun t => t }
      (fix_text_encoding defaultSettings { ftfy := fun t => some t, unescape := fun t => t }
        "a&amp;b") =
    fix_text_encoding defaultSettings { ftfy := fun t => some t, unescape := fun t => t }
      "a&amp;b" :=
  C6_repair_idempotent defaultSettings { ftfy := fun t => some t, unescape := fun t => t }
    (fun _ u h => by cases h; rfl) (fun _ u h => by cases h; rfl) (fun _ _ _ => rfl)
    "a&amp;b"


/-! Claim C8: the two extraction strategies (pyrex_html.py).  HTML
documents are modelled as trees of element, text and comment nodes; a
parsed document is a list of top-level nodes.  The two parser libraries
are oracles producing such trees; the element-removal and
text-flattening logic is modelled structurally. -/

mutual
/-- A parsed HTML node: an element with a tag and children, a text
node, or a comment node. -/
inductive Node where
  | element (tag : String) (children : NodeList)
  | textNode (s : String)
  | comment (s : String)
deriving Repr, DecidableEq
/-- A list of sibling HTML nodes. -/
inductive NodeList where
  | nil
  | cons (hd : Node) (tl : NodeList)
deriving Repr, DecidableEq
end

mutual
/-- The strings BeautifulSoup's get_text traverses, in document order.
Since bs4 4.9 (the only versions contemporary with this code's
dependency set), get_text and .strings by default consider only
NavigableString and CData: comments are excluded, and the contents of
script and style elements are excluded as well because bs4 stores them
in the Script and Stylesheet string containers (script and style are
raw-text elements, so their whole subtree contributes nothing). -/
def bs4Strings : Node → List String
  | .element tag children =>
    if tag = "script" || tag = "style" then [] else bs4StringsList children
  | .textNode str => [str]
  | .comment _ => []
/-- bs4Strings over sibling lists. -/
def bs4StringsList : NodeList → List String
  | .nil => []
  | .cons hd tl => bs4Strings hd ++ bs4StringsList tl
end

mutual
/-- The strings Selectolax's text() traverses: text nodes only,
comments are never part of the flattened text. -/
def fastStrings : Node → List String
  | .element _ children => fastStringsList children
  | .textNode str => [str]
  | .comment _ => []
/-- fastStrings over sibling lists. -/
def fastStringsList : NodeList → List String
  | .nil => []
  | .cons hd tl => fastStrings hd ++ fastStringsList tl
end

/-- separator-join with strip=True semantics shared by
soup.get_text(separator=' ', strip=True) and Selectolax
text(separator=' ', strip=True): strip each string, drop the ones that
become empty, join with one space. -/
def join_strip (l : List String) : String :=
  String.intercalate " " ((l.map pyStrip).filter (fun x => x ≠ ""))

/-- Tags removed during cleaning (pyrex_html.py lines 42-49 and 94-101,
the identical rule set in both strategies): script and style per
configuration, and the always-removed non-content elements. -/
def elements_to_remove (s : Settings) : List String :=
  (if s.remove_scripts then ["script"] else []) ++
  (if s.remove_styles then ["style"] else []) ++
  ["meta", "link", "title", "base"]

mutual
/-- decompose() of every element whose tag is in the removal list
(pyrex_html.py lines 103-105 and 52-54): drops the whole subtree. -/
def removeTagsNode (tags : List String) : Node → Option Node
  | .element tag children =>
    if tags.contains tag then none
    else some (.element tag (removeTagsList tags children))
  | .textNode str => some (.textNode str)
  | .comment str => some (.comment str)
/-- removeTagsNode over sibling lists. -/
def removeTagsList (tags : List String) : NodeList → NodeList
  | .nil => .nil
  | .cons hd tl =>
    match removeTagsNode tags hd with
    | none => removeTagsList tags tl
    | some h => .cons h (removeTagsList tags tl)
end

mutual
/-- extract() of every comment (pyrex_html.py lines 89-91). -/
def removeCommentsNode : Node → Option Node
  | .element tag children => some (.element tag (removeCommentsList children))
  | .textNode str => some (.textNode str)
  | .comment _ => none
/-- removeCommentsNode over sibling lists. -/
def removeCommentsList : NodeList → NodeList
  | .nil => .nil
  | .cons hd tl =>
    match removeCommentsNode hd with
    | none => removeCommentsList tl
    | some h => .cons h (removeCommentsList tl)
end

/-- The cleaning performed by parse_html on a successfully parsed soup
(pyrex_html.py lines 88-105): comments first when configured, then the
removal tag set. -/
def clean_full (s : Settings) (doc : NodeList) : NodeList :=
  removeTagsList (elements_to_remove s)
    (if s.remove_comments then removeCommentsList doc else doc)

/-- The cleaning performed by parse_html_fast (pyrex_html.py lines
39-54): the same removal tag set, but no comment handling at all. -/
def clean_fast (s : Settings) (doc : NodeList) : NodeList :=
  removeTagsList (elements_to_remove s) doc

/-- soup.get_text(separator=' ', strip=True) on a parsed document. -/
def get_text (doc : NodeList) : String :=
  join_strip (bs4StringsList doc)

/-- Selectolax parser.text(separator=' ', strip=True) on a parsed
document. -/
def selectolax_text (doc : NodeList) : String :=
  join_strip (fastStringsList doc)

/-- Oracles for the two HTML parser libraries.  selectolax_parse models
SelectolaxParser(html); bs4_parse models BeautifulSoup(html, parser)
with the parser name as first argument; none models a raised exception
(pyrex_html.py lines 58-60, 84-86, 112-117).  escape models
html.escape, used by the last-resort fallback document of parse_html. -/
structure HtmlOracles where
  selectolax_available : Bool
  selectolax_parse : String → Option NodeList
  bs4_parse : String → String → Option NodeList
  escape : String → String

/-- Embedding of parse_html (pyrex_html.py lines 63-117): preferred
parser, retry with html.parser, and the escaped-leaf fallback document
(whose construction from literal markup is modelled as the
corresponding tree) when both parses raise; cleaning is applied only on
the successful-parse path, as in the source. -/
def parse_html (s : Settings) (o : HtmlOracles) (html_content : String) : NodeList :=
  let parserName := if s.use_lxml_parsing then "lxml" else "html.parser"
  match
    (match o.bs4_parse parserName html_content with
     | some t => some t
     | none => o.bs4_parse "html.parser" html_content) with
  | some t => clean_full s t
  | none =>
    .cons (.element "html" (.cons (.element "body"
      (.cons (.textNode (o.escape html_content)) .nil)) .nil)) .nil

/-- Embedding of parse_html_fast (pyrex_html.py lines 22-60): requires
Selectolax, applies the shared removal set; none models the re-raised
exception of the except branch at lines 58-60. -/
def parse_html_fast (s : Settings) (o : HtmlOracles) (html_content : String) : Option NodeList :=
  if o.selectolax_available then (o.selectolax_parse html_content).map (clean_fast s)
  else none

/-- Embedding of extract_text_fast (pyrex_html.py lines 120-143):
Selectolax path when available, BeautifulSoup fallback on any error or
when unavailable. -/
def extract_text_fast (s : Settings) (o : HtmlOracles) (html_content : String) : String :=
  if o.selectolax_available then
    match parse_html_fast s o html_content with
    | some doc => selectolax_text doc
    | none => get_text (parse_html s o html_content)
  else get_text (parse_html s o html_content)


mutual
/-- Core lemma for C8, by mutual induction: once script and style are
in the removal set, the cleaned tree has no script or style elements
left, and on such trees the Selectolax flattening and the bs4
flattening traverse exactly the same strings (both ignore comments;
they differ only on script/style contents).  Stated at the node level
via the Option produced by removal. -/
theorem fast_eq_bs4_node (tags : List String) (hsc : "script" ∈ tags) (hst : "style" ∈ tags)
    (n : Node) :
    (match removeTagsNode tags n with | none => [] | some m => fastStrings m) =
    (match removeTagsNode tags n with | none => [] | some m => bs4Strings m) := by
  cases n with
  | textNode str => simp [removeTagsNode, fastStrings, bs4Strings]
  | comment str => simp [removeTagsNode, fastStrings, bs4Strings]
  | element tag children =>
    by_cases ht : tag ∈ tags
    · simp [removeTagsNode, ht]
    · have htag : ¬ (tag = "script" || tag = "style") = true := by
        simp only [Bool.or_eq_true, decide_eq_true_eq]
        rintro (rfl | rfl)
        · exact ht hsc
        · exact ht hst
      simp [removeTagsNode, ht, fastStrings, bs4Strings, htag]
      exact fast_eq_bs4_list tags hsc hst children
/-- List-level companion of fast_eq_bs4_node. -/
theorem fast_eq_bs4_list (tags : List String) (hsc : "script" ∈ tags) (hst : "style" ∈ tags)
    (l : NodeList) :
    fastStringsList (removeTagsList tags l) = bs4StringsList (removeTagsList tags l) := by
  cases l with
  | nil => rfl
  | cons hd tl =>
    have hnode := fast_eq_bs4_node tags hsc hst hd
    have hlist := fast_eq_bs4_list tags hsc hst tl
    cases hr : removeTagsNode tags hd with
    | none => simp [removeTagsList, hr, hlist]
    | some h =>
      simp only [hr] at hnode
      simp [removeTagsList, hr, fastStringsList, bs4StringsList, hnode, hlist]
end

mutual
/-- Second lemma for C8: removing comments before removing tags does
not change what bs4's get_text traverses, because comments contribute
nothing to it in the first place. -/
theorem bs4_comments_node (tags : List String) (n : Node) :
    (match removeTagsNode tags n with | none => [] | some m => bs4Strings m) =
    (match removeCommentsNode n with
     | none => []
     | some m => match removeTagsNode tags m with | none => [] | some k => bs4Strings k) := by
  cases n with
  | textNode str => simp [removeTagsNode, removeCommentsNode]
  | comment str => simp [removeTagsNode, removeCommentsNode, bs4Strings]
  | element tag children =>
    by_cases ht : tag ∈ tags
    · simp [removeTagsNode, removeCommentsNode, ht]
    · by_cases hss : (tag = "script" || tag = "style") = true
      · simp [removeTagsNode, removeCommentsNode, ht, bs4Strings, hss]
      · simp [removeTagsNode, removeCommentsNode, ht, bs4Strings, hss]
        exact bs4_comments_list tags children
/-- List-level companion of bs4_comments_node. -/
theorem bs4_comments_list (tags : List String) (l : NodeList) :
    bs4StringsList (removeTagsList tags l) =
    bs4StringsList (removeTagsList tags (removeCommentsList l)) := by
  cases l with
  | nil => rfl
  | cons hd tl =>
    have hnode := bs4_comments_node tags hd
    have hlist := bs4_comments_list tags tl
    cases hc : removeCommentsNode hd with
    | none =>
      cases hr : removeTagsNode tags hd with
      | none => simp [removeTagsList, removeCommentsList, hc, hr, hlist]
      | some h =>
        simp only [hr, hc] at hnode
        simp [removeTagsList, removeCommentsList, hc, hr, bs4StringsList, hnode, hlist]
    | some m =>
      cases hr : removeTagsNode tags hd with
      | none =>
        simp only [hr, hc] at hnode
        cases hr2 : removeTagsNode tags m with
        | none => simp [removeTagsList, removeCommentsList, hc, hr, hr2, hlist]
        | some k =>
          simp only [hr2] at hnode
          simp [removeTagsList, removeCommentsList, hc, hr, hr2, bs4StringsList, ← hnode, hlist]
      | some h =>
        simp only [hr, hc] at hnode
        cases hr2 : removeTagsNode tags m with
        | none =>
          simp only [hr2] at hnode
          simp [removeTagsList, removeCommentsList, hc, hr, hr2, bs4StringsList, hnode, hlist]
        | some k =>
          simp only [hr2] at hnode
          simp [removeTagsList, removeCommentsList, hc, hr, hr2, bs4StringsList, hnode, hlist]
end

/-- Concrete document for C8: a paragraph and a script element, as both
parsers would produce them for the markup used below. -/
def c8Doc : NodeList :=
  .cons (.element "p" (.cons (.textNode "hi") .nil))
    (.cons (.element "script" (.cons (.textNode "var x=1") .nil)) .nil)

/-- Concrete parser oracles for C8: both libraries parse the markup to
the same tree. -/
def c8Oracles : HtmlOracles where
  selectolax_available := true
  selectolax_parse := fun _ => some c8Doc
  bs4_parse := fun _ _ => some c8Doc
  escape := fun t => t

/-- C8 counterexample: with script removal disabled (a fixed
element-removal configuration) and both parsers producing the same
tree, the fast strategy yields "hi var x=1" while the full strategy
yields "hi" — Selectolax text() flattens the retained script contents,
while bs4 get_text always excludes them (Script string container),
whether or not the script element was removed.  The two strategies are
therefore not equivalent for every configuration. -/
theorem C8_counterexample :
    extract_text_fast { defaultSettings with remove_scripts := false } c8Oracles
      "<p>hi</p><script>var x=1</script>" = "hi var x=1" ∧
    get_text (parse_html { defaultSettings with remove_scripts := false } c8Oracles
      "<p>hi</p><script>var x=1</script>") = "hi" := by
  refine ⟨by decide, by decide⟩

/-- C8 (amended): whenever script removal and style removal are both
enabled (the default configuration), and the two parser libraries
produce the same tree for the input (the interchangeability premise of
the spec), the fast strategy's text equals the full strategy's
whitespace-normalized, tag-stripped visible text — for either setting
of comment removal, since both flatteners ignore comments.  The
script/style restriction is forced by the counterexample. -/
theorem C8_strategies_equivalent_with_script_style_removal (s : Settings) (o : HtmlOracles)
    (content : String) (doc : NodeList)
    (hsc : s.remove_scripts = true)
    (hst : s.remove_styles = true)
    (hav : o.selectolax_available = true)
    (hsel : o.selectolax_parse content = some doc)
    (hbs : o.bs4_parse (if s.use_lxml_parsing then "lxml" else "html.parser") content = some doc) :
    extract_text_fast s o content = get_text (parse_html s o content) := by
  have hmem_sc : "script" ∈ elements_to_remove s := by
    simp [elements_to_remove, hsc]
  have hmem_st : "style" ∈ elements_to_remove s := by
    simp [elements_to_remove, hst]
  unfold extract_text_fast parse_html_fast parse_html
  simp only [hav, if_true, hsel, hbs, Option.map_some]
  unfold selectolax_text get_text clean_fast clean_full
  cases hrc : s.remove_comments with
  | false =>
    simp only [hrc, Bool.false_eq_true, if_false]
    exact congrArg join_strip (fast_eq_bs4_list _ hmem_sc hmem_st doc)
  | true =>
    simp only [hrc, if_true]
    refine congrArg join_strip ?_
    rw [fast_eq_bs4_list _ hmem_sc hmem_st doc]
    exact bs4_comments_list _ doc

/-- Witness for C8: under the default configuration (script and style
removal on) the two strategies agree on the concrete script-bearing
document. -/
theorem C8_witness :
    extract_text_fast defaultSettings c8Oracles "<p>hi</p><script>var x=1</script>" =
    get_text (parse_html defaultSettings c8Oracles "<p>hi</p><script>var x=1</script>") :=
  C8_strategies_equivalent_with_script_style_removal defaultSettings c8Oracles
    "<p>hi</p><script>var x=1</script>" c8Doc rfl rfl rfl rfl rfl


/-! Claims C7 and C10: the per-record pipeline hub (process_record,
pyrex.py lines 134-215). -/

/-- Oracle bundle for the pipeline stages: repair libraries, Unicode
NFC normalization (unicodedata.normalize, a total pure function),
language detectors, and HTML parsers. -/
structure PipelineOracles where
  repair : RepairOracles
  nfc : String → String
  lang : LangOracles
  html : HtmlOracles

/-- The result dictionary of process_record (pyrex.py lines 207-215).
parsed_html is none on the fast path, mirroring the Python None at line
192. -/
structure ProcessedData where
  record_data : List String
  original_payload : String
  repaired_payload : String
  normalized_payload : String
  parsed_html : Option NodeList
  visible_text : String
  detected_language : Option String
deriving Repr, DecidableEq

/-- Embedding of process_record (pyrex.py lines 134-215).  The Python
function mutates its record_data argument in place via list.append
(lines 200 and 202); the embedding threads that list state explicitly
and returns (final state of record_data, result), so the first
component is what the caller's list holds after the call. -/
def process_record (s : Settings) (o : PipelineOracles) (record_data : List String)
    (html_payload : String) : List String × Option ProcessedData :=
  let repaired_payload := fix_text_encoding s o.repair html_payload
  let normalized_payload := o.nfc repaired_payload
  let langGate : Option (Option String) :=
    if s.enable_language_filtering then
      let quick_text :=
        if o.html.selectolax_available then extract_text_fast s o.html normalized_payload
        else get_text (parse_html s o.html normalized_payload)
      let res := detect_and_filter_languages s o.lang quick_text
      if res.1 then some res.2 else none
    else some none
  match langGate with
  | none => (record_data, none)
  | some detected_language =>
    if filter_minimal_html s (some (extract_text_fast s o.html normalized_payload)) none then
      let pv : Option NodeList × String :=
        if s.dump_with_html_tags || !s.use_fast_parsing then
          let parsed := parse_html s o.html normalized_payload
          (some parsed, get_text parsed)
        else if o.html.selectolax_available then
          (none, extract_text_fast s o.html normalized_payload)
        else
          let parsed := parse_html s o.html normalized_payload
          (some parsed, get_text parsed)
      let record_data2 :=
        match detected_language with
        | some d =>
          if d = "" then
            (if s.enable_language_filtering then record_data ++ ["Language: unknown"]
             else record_data)
          else record_data ++ ["Language: " ++ d]
        | none =>
          if s.enable_language_filtering then record_data ++ ["Language: unknown"]
          else record_data
      (record_data2,
       some { record_data := record_data2
              original_payload := html_payload
              repaired_payload := repaired_payload
              normalized_payload := normalized_payload
              parsed_html := pv.1
              visible_text := pv.2
              detected_language := detected_language })
    else (record_data, none)


/-- Concrete settings for the pipeline claims: language filtering on,
German accepted, a small minimum length. -/
def c7Settings : Settings :=
  { defaultSettings with
      enable_language_filtering := true
      accepted_languages := ["de"]
      language_confidence_threshold := ratQ 7 10 (by norm_num) (by norm_num)
      minimal_text_length := 10 }

/-- Concrete pipeline oracles: identity repair and normalization, a
confident German lingua detection, and a BeautifulSoup parse that
yields a single text node holding the payload. -/
def c7Oracles : PipelineOracles where
  repair := { ftfy := fun t => some t, unescape := fun t => t }
  nfc := fun t => t
  lang :=
    { lingua_available := true
      lingua := fun _ => some [("de", ratQ 9 10 (by norm_num) (by norm_num))]
      langid := fun _ => none }
  html :=
    { selectolax_available := false
      selectolax_parse := fun _ => none
      bs4_parse := fun _ c => some (.cons (.textNode c) .nil)
      escape := fun t => t }

/-- C7 counterexample: process_record does not leave its record_data
argument unchanged — delivering a record with language filtering
enabled appends a language entry to the caller's metadata list in place
(record_data.append at pyrex.py line 200; the embedding's first
component is the final state of that list). -/
theorem C7_counterexample :
    (process_record c7Settings c7Oracles ["Record #1"] "Hallo Welt dies ist ein Test").1 =
      ["Record #1", "Language: de"] ∧
    (["Record #1", "Language: de"] : List String) ≠ ["Record #1"] := by
  refine ⟨by decide, by decide⟩

/-- C7 (amended): process_record leaves the caller's record_data list
unchanged whenever it filters the record out or language filtering is
disabled; when it delivers a record, the only mutation is appending
exactly one language metadata entry (which happens exactly when
language filtering is enabled). -/
theorem C7_mutation_only_language_entry (s : Settings) (o : PipelineOracles)
    (rd : List String) (payload : String) :
    (process_record s o rd payload).1 = rd ∨
    (s.enable_language_filtering = true ∧ (process_record s o rd payload).2 ≠ none ∧
     ∃ entry, (process_record s o rd payload).1 = rd ++ [entry]) := by
  unfold process_record
  cases he : s.enable_language_filtering with
  | false =>
    simp only [he, Bool.false_eq_true, if_false]
    by_cases hf : filter_minimal_html s
        (some (extract_text_fast s o.html (o.nfc (fix_text_encoding s o.repair payload)))) none = true
    · simp [hf]
    · simp [hf]
  | true =>
    simp only [he, if_true]
    by_cases hres : (detect_and_filter_languages s o.lang
        (if o.html.selectolax_available = true then
          extract_text_fast s o.html (o.nfc (fix_text_encoding s o.repair payload))
         else get_text (parse_html s o.html (o.nfc (fix_text_encoding s o.repair payload))))).1 = true
    · simp only [hres, if_true]
      by_cases hf : filter_minimal_html s
          (some (extract_text_fast s o.html (o.nfc (fix_text_encoding s o.repair payload)))) none = true
      · simp only [hf, if_true]
        cases hdet : (detect_and_filter_languages s o.lang
            (if o.html.selectolax_available = true then
              extract_text_fast s o.html (o.nfc (fix_text_encoding s o.repair payload))
             else get_text (parse_html s o.html (o.nfc (fix_text_encoding s o.repair payload))))).2 with
        | none => simp [hdet, he]
        | some d =>
          by_cases hd : d = ""
          · simp [hdet, hd, he]
          · simp [hdet, hd, he]
      · simp [hf]
    · simp [hres]

/-- Helper for C10: a language metadata entry equals the unknown entry
only for the code "unknown" (cancellation of the shared label). -/
theorem lang_entry_inj {c : String} (h : ("Language: " ++ c : String) = "Language: unknown") :
    c = "unknown" := by
  have hd := congrArg String.data h
  rw [String.data_append] at hd
  have hd2 : "Language: ".data ++ c.data = "Language: ".data ++ "unknown".data := hd
  exact String.ext (List.append_cancel_left hd2)

/-- Helper for C10: with language filtering enabled, an accepting run
of detect_and_filter_languages carries a nonempty detected language
that is a member of the accepted set (case-insensitively). -/
theorem detect_and_filter_accept_spec (s : Settings) (o : LangOracles) (text : String)
    (he : s.enable_language_filtering = true)
    (h : (detect_and_filter_languages s o text).1 = true) :
    ∃ lang, lang ≠ "" ∧ (s.accepted_languages.map pyLower).contains (pyLower lang) = true ∧
      (detect_and_filter_languages s o text).2 = some lang := by
  unfold detect_and_filter_languages at h ⊢
  simp only [he, Bool.not_true, Bool.false_eq_true, if_false] at h ⊢
  by_cases h2 : (text = "" || pyStrip text = "") = true
  · rw [if_pos h2] at h; simp at h
  · rw [if_neg h2] at h ⊢
    by_cases h3 : pyLen (pyStrip (pyTake text s.language_detection_chars)) < 10
    · rw [if_pos h3] at h; simp at h
    · rw [if_neg h3] at h ⊢
      cases hd : detect_language s o (pyStrip (pyTake text s.language_detection_chars)) with
      | none => rw [hd] at h; simp at h
      | some lang =>
        simp only [hd] at h ⊢
        by_cases hl : lang = ""
        · rw [if_pos hl] at h; simp at h
        · rw [if_neg hl] at h ⊢
          exact ⟨lang, hl, h, rfl⟩

/-- C10: with language filtering enabled, every delivered record
carries exactly one appended language entry whose code is nonempty and
case-insensitively a member of the accepted-language set; the
"Language: unknown" entry can only appear if it was already in the
input metadata or if the accepted set itself admits the code
"unknown". -/
theorem C10_delivered_language_in_accepted_set (s : Settings) (o : PipelineOracles)
    (rd : List String) (payload : String) (r : ProcessedData)
    (he : s.enable_language_filtering = true)
    (hres : (process_record s o rd payload).2 = some r) :
    ∃ code, code ≠ "" ∧ (s.accepted_languages.map pyLower).contains (pyLower code) = true ∧
      r.record_data = rd ++ ["Language: " ++ code] ∧
      ("Language: unknown" ∈ r.record_data → "Language: unknown" ∈ rd ∨ code = "unknown") := by
  unfold process_record at hres
  simp only [he, if_true] at hres
  by_cases hacc : (detect_and_filter_languages s o.lang
      (if o.html.selectolax_available = true then
        extract_text_fast s o.html (o.nfc (fix_text_encoding s o.repair payload))
       else get_text (parse_html s o.html (o.nfc (fix_text_encoding s o.repair payload))))).1 = true
  · obtain ⟨lang, hl, hmem, hdet⟩ := detect_and_filter_accept_spec s o.lang _ he hacc
    simp only [hacc, if_true, hdet] at hres
    by_cases hf : filter_minimal_html s
        (some (extract_text_fast s o.html (o.nfc (fix_text_encoding s o.repair payload)))) none = true
    · simp only [hf, if_true, if_neg hl, Option.some.injEq] at hres
      refine ⟨lang, hl, hmem, ?_, ?_⟩
      · rw [← hres]
      · intro hm
        rw [← hres] at hm
        simp only [List.mem_append, List.mem_singleton] at hm
        rcases hm with hm | hm
        · exact Or.inl hm
        · exact Or.inr (lang_entry_inj hm.symm)
    · simp [hf] at hres
  · simp [hacc] at hres

/-- The processed-record bundle the concrete pipeline run below
produces. -/
def c10r : ProcessedData where
  record_data := ["Record #1", "Language: de"]
  original_payload := "Hallo Welt dies ist ein Test"
  repaired_payload := "Hallo Welt dies ist ein Test"
  normalized_payload := "Hallo Welt dies ist ein Test"
  parsed_html := some (.cons (.textNode "Hallo Welt dies ist ein Test") .nil)
  visible_text := "Hallo Welt dies ist ein Test"
  detected_language := some "de"

/-- Witness for C10: the concrete delivered record carries the
accepted German language entry. -/
theorem C10_witness :
    ∃ code, code ≠ "" ∧
      (c7Settings.accepted_languages.map pyLower).contains (pyLower code) = true ∧
      c10r.record_data = ["Record #1"] ++ ["Language: " ++ code] ∧
      ("Language: unknown" ∈ c10r.record_data → "Language: unknown" ∈ ["Record #1"] ∨ code = "unknown") :=
  C10_delivered_language_in_accepted_set c7Settings c7Oracles ["Record #1"]
    "Hallo Welt dies ist ein Test" c10r rfl (by decide)


/-! Claim C9: the per-record loop body of read_warc_file (pyrex.py
lines 231-312). -/

/-- Python substring containment (sub in hay). -/
def pyContainsSub (hay sub : String) : Bool :=
  hay.data.tails.any (fun t => sub.data.isPrefixOf t)

/-- Python str.startswith. -/
def pyStartsWith (s pre : String) : Bool :=
  pre.data.isPrefixOf s.data

/-- One WARC record as read_warc_file sees it: header fields (the
target URI as delivered by rec_headers.get with default '', so an
absent header and an empty one coincide, exactly as in the code's
truthiness test at line 247) and the raw payload bytes. -/
structure WarcRecord where
  rec_type : String
  target_uri : String
  warc_date : String
  content_type : String
  content_length : String
  record_id : String
  payload : List Nat

/-- What the loop body does with one record. uncaughtError marks a
decode exception escaping to the run-level handler (impossible when
utf-8 decoding is total, claim C3). -/
inductive RecordOutcome where
  | uncaughtError
  | skippedNoUri
  | skippedUrlFilter
  | skippedNonResponse
  | skippedNonHtml
  | filteredOut
  | delivered (data : ProcessedData)
deriving Repr, DecidableEq

/-- Oracle bundle for the reader loop. -/
structure ReaderOracles where
  url : UrlOracles
  dec : DecodeOracles
  pipe : PipelineOracles

/-- Embedding of the body of the record loop in read_warc_file
(pyrex.py lines 231-312) for one record: metadata assembly, early URL
filtering (with the no-URI skip), the response-type gate, payload
decoding, HTML detection (content-type substring first, then the
payload-prefix markers), and the pipeline call.  The second component
records whether decode_and_normalize was invoked on the payload. -/
def read_record_step (s : Settings) (o : ReaderOracles) (record_count : Nat)
    (rec : WarcRecord) : RecordOutcome × Bool :=
  let record_data := [
    "Record #" ++ toString record_count,
    "Type: " ++ rec.rec_type,
    "URI: " ++ (if rec.target_uri = "" then "N/A" else rec.target_uri),
    "Date: " ++ rec.warc_date,
    "Content-Type: " ++ rec.content_type,
    "Content-Length: " ++ rec.content_length,
    "Record ID: " ++ rec.record_id]
  if rec.target_uri ≠ "" then
    let fr := parse_and_filter_url s o.url rec.target_uri
    if !fr.1 then (.skippedUrlFilter, false)
    else
      let record_data2 := record_data ++
        (match fr.2.1 with | some t => if t ≠ "" then ["TLD: " ++ t] else [] | none => []) ++
        (match fr.2.2.1 with | some d => if d ≠ "" then ["Domain: " ++ d] else [] | none => []) ++
        (match fr.2.2.2 with | some h => if h ≠ "" then ["Hostname: " ++ h] else [] | none => [])
      if rec.rec_type = "response" then
        match decode_and_normalize s o.dec rec.payload with
        | none => (.uncaughtError, true)
        | some html_payload =>
          let content_type := pyLower rec.content_type
          let is_html :=
            if pyContainsSub content_type "html" then true
            else
              let payload_start := pyLower (pyStrip (pyTake html_payload s.html_detection_sample))
              pyStartsWith payload_start "<!doctype html" || pyStartsWith payload_start "<html"
          if is_html then
            match process_record s o.pipe record_data2 html_payload with
            | (_, some data) => (.delivered data, true)
            | (_, none) => (.filteredOut, true)
          else (.skippedNonHtml, true)
      else (.skippedNonResponse, false)
  else (.skippedNoUri, false)

/-- C9: a record whose WARC-Target-URI header is absent or empty is
skipped before any payload decoding, for every configuration (in
particular with URL filtering disabled), and can never be delivered to
the output sink. -/
theorem C9_no_uri_skipped_before_decode (s : Settings) (o : ReaderOracles)
    (record_count : Nat) (rec : WarcRecord) (hu : rec.target_uri = "") :
    read_record_step s o record_count rec = (.skippedNoUri, false) ∧
    ∀ d, (read_record_step s o record_count rec).1 ≠ RecordOutcome.delivered d := by
  have h : read_record_step s o record_count rec = (.skippedNoUri, false) := by
    unfold read_record_step
    rw [hu]
    simp
  exact ⟨h, by rw [h]; intro d; simp⟩

/-- Witness for C9: a concrete empty-URI record, with URL filtering
disabled, is skipped without decoding. -/
theorem C9_witness :
    read_record_step { defaultSettings with enable_url_filtering := false }
      { url := c2Oracles, dec := c3Oracles, pipe := c7Oracles } 1
      { rec_type := "response", target_uri := "", warc_date := "2024",
        content_type := "text/html", content_length := "12", record_id := "id-1",
        payload := [104, 105] } = (.skippedNoUri, false) :=
  (C9_no_uri_skipped_before_decode { defaultSettings with enable_url_filtering := false }
    { url := c2Oracles, dec := c3Oracles, pipe := c7Oracles } 1
    { rec_type := "response", target_uri := "", warc_date := "2024",
      content_type := "text/html", content_length := "12", record_id := "id-1",
      payload := [104, 105] } rfl).1

end PyRex
